import Mathlib

/-!
Shallow embedding of the RAML client generator (the repository's core source
file): the parameter validator `validateParam`, the URI template substituter
`template`, the per-resource attachment logic of `attachResources`, and a
heap-based model of the mutable `routeNodes` arrays shared between the
`query`/`headers` helpers and the request closures produced by `httpRequest`.
JavaScript numbers are modelled as rationals (plus a separate NaN value),
JavaScript absent values as `null`/`undefined`, and thrown validation errors as
an `Except` result.
-/

/-- JavaScript runtime values, restricted to the shapes the generator
manipulates.  `regexp` carries its `test` predicate; `date`, `regexp` and
`arr` stand for heap objects, whose strict equality is object identity (so
two independently built ones are never strictly equal). -/
inductive JSVal where
  | null
  | undefined
  | str (s : String)
  | num (q : ℚ)
  | nan
  | bool (b : Bool)
  | date
  | regexp (test : String → Bool)
  | arr (elems : List JSVal)

/-- Loose equality against null, the JavaScript test `value == null`:
true exactly for `null` and `undefined`. -/
def JSVal.isNullish : JSVal → Bool
  | .null => true
  | .undefined => true
  | _ => false

/-- The underscore helper `_.isString`. -/
def JSVal.isString : JSVal → Bool
  | .str _ => true
  | _ => false

/-- Strict equality `===`.  NaN is not strictly equal to itself; values of
different types are never strictly equal; object values (`date`, `regexp`,
`arr`) compare by identity, and distinct literals are distinct objects. -/
def jsStrictEq : JSVal → JSVal → Bool
  | .null, .null => true
  | .undefined, .undefined => true
  | .str a, .str b => a == b
  | .num a, .num b => a == b
  | .bool a, .bool b => a == b
  | _, _ => false

/-- Truthiness of a JavaScript value (`!!v`). -/
def jsTruthy : JSVal → Bool
  | .null => false
  | .undefined => false
  | .nan => false
  | .str s => s != ""
  | .num q => q != 0
  | .bool b => b
  | .date => true
  | .regexp _ => true
  | .arr _ => true

/-- The test `value === parseInt(value, 10)`: it holds exactly when the value
is a number whose decimal rendering reparses to itself, i.e. an integral
number.  (Huge floats rendered in exponent form escape this in JavaScript;
the rational model has no float rendering, so they are out of scope.) -/
def isIntegerJS : JSVal → Bool
  | .num q => q.den == 1
  | _ => false

/-- A RAML parameter specification, as the validator reads it: each facet is
an arbitrary JavaScript value, and a facet the description leaves out reads
as `undefined`. -/
structure Param where
  displayName : JSVal := .undefined
  type : JSVal := .undefined
  required : JSVal := .undefined
  enum : JSVal := .undefined
  minLength : JSVal := .undefined
  maxLength : JSVal := .undefined
  pattern : JSVal := .undefined
  minimum : JSVal := .undefined
  maximum : JSVal := .undefined

/-- Validation failures, one per throw site of `validateParam`, named after
the specification's error taxonomy. -/
inductive VErr where
  | missingRequired
  | typeMismatch
  | enumViolation
  | lengthViolation
  | patternViolation
  | rangeViolation
  deriving DecidableEq, Repr

/-- Membership test `_.contains(list, value)`, which uses strict equality. -/
def jsContains (xs : List JSVal) (v : JSVal) : Bool :=
  xs.any (fun x => jsStrictEq x v)

/-- The enum check of the string branch:
`_.isArray(param.enum) && !_.contains(param.enum, value)`. -/
def enumViolated (param : Param) (value : JSVal) : Bool :=
  match param.enum with
  | .arr es => !jsContains es value
  | _ => false

/-- The minimum-length check of the string branch:
`minLength === +minLength && value.length < minLength`.  The guard
`x === +x` holds exactly when the facet is a non-NaN number. -/
def minLengthViolated (param : Param) (s : String) : Bool :=
  match param.minLength with
  | .num m => decide ((s.length : ℚ) < m)
  | _ => false

/-- The maximum-length check of the string branch:
`maxLength === +maxLength && value.length > maxLength`. -/
def maxLengthViolated (param : Param) (s : String) : Bool :=
  match param.maxLength with
  | .num m => decide (m < (s.length : ℚ))
  | _ => false

/-- The pattern check of the string branch:
`_.isRegExp(param.pattern) && !param.pattern.test(value)`. -/
def patternViolated (param : Param) (s : String) : Bool :=
  match param.pattern with
  | .regexp t => !t s
  | _ => false

/-- The lower range check of the numeric branch:
`param.minimum === +param.minimum && value < param.minimum`. -/
def minimumViolated (param : Param) (q : ℚ) : Bool :=
  match param.minimum with
  | .num m => decide (q < m)
  | _ => false

/-- The upper range check of the numeric branch:
`param.maximum === +param.maximum && value > param.maximum`. -/
def maximumViolated (param : Param) (q : ℚ) : Bool :=
  match param.maximum with
  | .num m => decide (m < q)
  | _ => false

/-- The shared tail of the integer/number branch: the two range checks. -/
def checkRange (q : ℚ) (param : Param) : Except VErr Bool :=
  if minimumViolated param q then .error .rangeViolation
  else if maximumViolated param q then .error .rangeViolation
  else .ok true

/-- Validation of a candidate value against a parameter spec, one branch per
branch of the source.  A thrown error becomes `.error`; the source's final
`return true` becomes `.ok true`.
The number branch's type test `value !== +value` admits exactly non-NaN
numbers; the integer branch's `value !== parseInt(value, 10)` additionally
demands an integral value (see `isIntegerJS`). -/
def validateParam (value : JSVal) (param : Param) : Except VErr Bool :=
  if jsStrictEq param.required (.bool true) && value.isNullish then
    .error .missingRequired
  else if value.isNullish then
    .ok true
  else if jsStrictEq param.type (.str "string") then
    match value with
    | .str s =>
      if enumViolated param (.str s) then .error .enumViolation
      else if minLengthViolated param s then .error .lengthViolation
      else if maxLengthViolated param s then .error .lengthViolation
      else if patternViolated param s then .error .patternViolation
      else .ok true
    | _ => .error .typeMismatch
  else if jsStrictEq param.type (.str "integer") ||
          jsStrictEq param.type (.str "number") then
    match value with
    | .num q =>
      if jsStrictEq param.type (.str "number") then checkRange q param
      else if q.den == 1 then checkRange q param
      else .error .typeMismatch
    | _ => .error .typeMismatch
  else if jsStrictEq param.type (.str "date") then
    match value with
    | .date => .ok true
    | _ => .error .typeMismatch
  else if jsStrictEq param.type (.str "boolean") then
    match value with
    | .bool _ => .ok true
    | _ => .error .typeMismatch
  else
    .ok true

/-- Substitution context: the third argument of `template`.  The source
distinguishes arrays (positional lookup via a running match index) from
plain objects (lookup by the matched tag name); a missing entry reads as
`undefined` either way. -/
inductive TContext where
  | named (entries : List (String × JSVal))
  | positional (elems : List JSVal)

/-- Property lookup on a plain-object context (`context[param]`). -/
def namedGet (entries : List (String × JSVal)) (k : String) : JSVal :=
  match entries.find? (fun e => e.1 == k) with
  | some e => e.2
  | none => .undefined

/-- Index lookup on an array context (`context[index]`). -/
def positionalGet (xs : List JSVal) (i : Nat) : JSVal := xs.getD i .undefined

/-- String coercion that `String.replace` applies to the callback's return
value.  Only the primitive cases are rendered exactly; a non-integral number
and the object values get stand-in renderings (JavaScript float and object
rendering have no exact rational-model counterpart), none of which any
claim's inputs reach. -/
def jsToString : JSVal → String
  | .null => "null"
  | .undefined => "undefined"
  | .str s => s
  | .num q => if q.den = 1 then toString q.num else toString q
  | .nan => "NaN"
  | .bool b => if b then "true" else "false"
  | .date => "[object Date]"
  | .regexp _ => "[regexp]"
  | .arr _ => ""

/-- Consumes `ps` as a literal character prefix of `cs`, returning the rest. -/
def dropPrefixChars : List Char → List Char → Option (List Char)
  | [], cs => some cs
  | p :: ps, c :: cs => if p = c then dropPrefixChars ps cs else none
  | _ :: _, [] => none

/-- Tries to read the literal token of one declared key, brace-wrapped, at the
head of `cs`, returning the remaining characters on success. -/
def stripTagKey (k : String) (cs : List Char) : Option (List Char) :=
  match cs with
  | '{' :: rest =>
    match dropPrefixChars k.data rest with
    | some ('}' :: rest2) => some rest2
    | _ => none
  | _ => none

/-- One match attempt of the compiled pattern at the head of `cs`: the keys
are tried in declaration order (regular-expression alternation takes the
first alternative that lets the whole token match), and the brace-wrapped
key must occur literally (each key is escaped before being compiled). -/
def findTag (keys : List String) (cs : List Char) : Option (String × List Char) :=
  match keys with
  | [] => none
  | k :: ks =>
    match stripTagKey k cs with
    | some rest => some (k, rest)
    | none => findTag ks cs

/-- Lookup of the spec for a matched tag (`params[param]`); the matched tag
is always one of the declared keys, so the lookup never misses. -/
def paramsLookup (ps : List (String × Param)) (k : String) : Option Param :=
  (ps.find? (fun e => e.1 == k)).map (fun e => e.2)

/-- The global left-to-right replacement pass of `string.replace(paramRegex,
callback)`.  At each position the engine either matches a declared
brace-wrapped tag (validating the context value for that tag, advancing the
positional index, and emitting the coerced value, or the empty string for a
nullish value) or copies one character and moves on.  A thrown validation
error aborts the whole call.  `fuel` only bounds the recursion; it is
instantiated with the full character count, which one-character-or-more
consumption per step never exhausts. -/
def subTags (ps : List (String × Param)) (ctx : TContext) :
    Nat → Nat → List Char → Except VErr (List Char)
  | _, _, [] => .ok []
  | 0, _, cs => .ok cs
  | fuel + 1, idx, c :: cs =>
    match findTag (ps.map (fun e => e.1)) (c :: cs) with
    | some (k, rest) =>
      let spec := (paramsLookup ps k).getD {}
      let v := match ctx with
        | .named entries => namedGet entries k
        | .positional xs => positionalGet xs idx
      match validateParam v spec with
      | .error e => .error e
      | .ok _ =>
        let txt := if v.isNullish then [] else (jsToString v).data
        match subTags ps ctx fuel (idx + 1) rest with
        | .error e => .error e
        | .ok tail => .ok (txt ++ tail)
    | none =>
      match subTags ps ctx fuel idx cs with
      | .error e => .error e
      | .ok tail => .ok (c :: tail)

/-- The template substituter (`template(string, params, context)`).  A falsy
`params` (absent mapping) short-circuits to the input unchanged before any
pattern is built.  (The degenerate case of a present-but-empty mapping,
whose compiled pattern would match a literal empty brace pair and then crash
reading a facet of an undefined spec, lies outside every call site modelled
here and is not exercised by any claim.) -/
def template (s : String) (params : Option (List (String × Param)))
    (ctx : TContext) : Except VErr String :=
  match params with
  | none => .ok s
  | some ps =>
    match subTags ps ctx s.data.length 0 s.data with
    | .error e => .error e
    | .ok cs => .ok (String.mk cs)

/-- Spec for the `id` parameter used by the concrete claim instances. -/
def idSpec : Param :=
  { displayName := .str "id", type := .str "string", required := .bool true }

/-- The plain HTTP method names of the source. -/
def HTTP_METHODS : List String := ["get", "head", "put", "post", "patch", "delete"]

/-- Accessor names the builder refuses to claim for a resource:
the HTTP methods plus the two helper names. -/
def RESERVED_METHODS : List String := HTTP_METHODS ++ ["headers", "query"]

/-- A word character of the pattern's leading run (ASCII letter, digit or
underscore). -/
def isWordChar (c : Char) : Bool := c.isAlphanum || c = '_'

/-- Drops the greedy leading word-character run.  No word character is an
opening brace, so greediness here is deterministic: the run ends exactly at
the first non-word character, which must then open the first tag group. -/
def dropWordChars : List Char → List Char
  | c :: cs => if isWordChar c then dropWordChars cs else c :: cs
  | [] => []

/-- Matches one-or-more brace groups, each with a nonempty brace-free body,
ending exactly at the end of input: the tail of the route-shape test.  The
fuel only bounds recursion and is instantiated with the character count,
which the at-least-three-character consumption per group never exhausts. -/
def groupsToEnd : Nat → List Char → Bool
  | 0, _ => false
  | fuel + 1, cs =>
    match cs with
    | '{' :: rest =>
      let body := rest.takeWhile (fun c => !(c = '{' || c = '}'))
      match rest.drop body.length with
      | '}' :: rest2 =>
        !body.isEmpty && (rest2.isEmpty || groupsToEnd fuel rest2)
      | _ => false
    | _ => false

/-- The route-shape test of the builder: optional leading static word text,
then one-or-more brace-wrapped tags, and nothing after. -/
def routeShapeOk (route : String) : Bool :=
  groupsToEnd route.length (dropWordChars route.data)

/-- The static text before the first opening brace
(`route.substr(0, route.indexOf(brace))`): empty when no brace occurs,
since a negative index makes substr produce the empty string. -/
def substrToFirstBrace (route : String) : String :=
  if route.data.contains '{' then String.mk (route.data.takeWhile (fun c => c ≠ '{'))
  else ""

/-- The accessor name the builder derives for a tag-bearing route: the bare
tag itself when the route is exactly one brace-wrapped tag and exactly one
tag is declared, otherwise the static text before the first brace. -/
def derivedRouteName (route : String) (templateTags : List String) : String :=
  if templateTags.length == 1 &&
      route == "\x7b" ++ templateTags.headD "" ++ "\x7d" then
    templateTags.headD ""
  else substrToFirstBrace route

/-- Outcome of the builder's per-resource attachment decision. -/
inductive AttachResult where
  | skipped
  | dynamic (routeName : String) (templateCount : Nat)
  | staticChild (routeName : String)
  deriving DecidableEq, Repr

/-- The per-resource decision of the builder: a resource with a truthy,
nonempty set of declared parameter keys is attached as a dynamic accessor
when its route passes the shape test and the derived name is not reserved,
and skipped otherwise; a resource with no declared parameter keys becomes a
static child under its full route text. -/
def attachDecision (route : String)
    (uriParameters : Option (List (String × Param))) : AttachResult :=
  match uriParameters with
  | some ups =>
    let templateTags := ups.map (fun e => e.1)
    if templateTags.length != 0 then
      if routeShapeOk route then
        let routeName := derivedRouteName route templateTags
        if RESERVED_METHODS.contains routeName then .skipped
        else .dynamic routeName templateTags.length
      else .skipped
    else .staticChild route
  | none => .staticChild route

/-- Errors a dynamic accessor can throw: the arity error thrown by its own
body, or a validation error propagated out of the template engine. -/
inductive DslError where
  | insufficientArguments
  | validation (e : VErr)
  deriving DecidableEq, Repr

/-- The body of a dynamic accessor: `templateCount` is the declared-key count
saved before any name derivation, `routeNodes` the cloned path-segment list
whose last entry is the raw route text.  Too few arguments throw before the
template engine runs and before the last segment is reassigned; otherwise
the substituted text replaces the last segment of the nodes the fresh
subtree is built over. -/
def accessorInvoke (route : String) (uriParameters : List (String × Param))
    (templateCount : Nat) (routeNodes : List String) (args : List JSVal) :
    Except DslError (List String) :=
  if args.length < templateCount then
    .error .insufficientArguments
  else
    match template route (some uriParameters) (.positional args) with
    | .error e => .error (.validation e)
    | .ok t => .ok (routeNodes.set (routeNodes.length - 1) t)

/-- Tag names textually present in a route, in order: the bodies of its
brace-wrapped groups.  Fuel as elsewhere. -/
def tagsInRoute : Nat → List Char → List String
  | 0, _ => []
  | _, [] => []
  | fuel + 1, c :: cs =>
    if c = '{' then
      let body := cs.takeWhile (fun d => d ≠ '}')
      match cs.drop body.length with
      | '}' :: rest => String.mk body :: tagsInRoute fuel rest
      | _ => []
    else tagsInRoute fuel cs

/-- Tag names textually present in a route. -/
def routeTags (route : String) : List String :=
  tagsInRoute route.length route.data

/-- One `routeNodes` array with its attached metadata: the path segments, the
base URI, and the `query`/`headers` slots.  An outer `none` models the
property being absent (the `in` test fails), `some none` the property set to
null, `some (some v)` a real value. -/
structure RouteRec where
  segments : List String
  baseUri : String
  query : Option (Option String) := none
  headers : Option (Option (List (String × String))) := none
  deriving DecidableEq, Repr

/-- A heap of `routeNodes` records; an address is an index.  Reads of
unallocated addresses (which no modelled trace performs) yield an empty
record. -/
abbrev Heap : Type := List RouteRec

/-- Heap read. -/
def heapGet (h : Heap) (a : Nat) : RouteRec :=
  List.getD h a { segments := [], baseUri := "" }

/-- Heap update in place: the JavaScript assignments
`routeNodes.query = ...`, `routeNodes.headers = ...` and
`routeNodes[last] = ...` mutate the record every closure holding this
address observes. -/
def heapSet (h : Heap) (a : Nat) (r : RouteRec) : Heap := List.set h a r

/-- Allocation of a fresh record (`_.extend([], nodes, ...)` builds a new
array): the record is appended and its index returned. -/
def alloc (h : Heap) (r : RouteRec) : Heap × Nat := (h ++ [r], h.length)

/-- The URL `httpRequest` computes eagerly, at attach time:
`url.resolve(nodes.baseUri, nodes.join(sep))`, then resolving the query
string onto it when `nodes.query` is a string.  `url.resolve` is an external
library routine, modelled as path concatenation with separators. -/
def buildFullUrl (r : RouteRec) : String :=
  let base := r.baseUri ++ "/" ++ String.intercalate "/" r.segments
  match r.query with
  | some (some q) => base ++ "?" ++ q
  | _ => base

/-- A request closure returned by `httpRequest`: the URL is baked in at
attach time, but the closure keeps the address of `nodes` and reads
`nodes.headers` only when the request is made. -/
structure VerbClosure where
  fullUrl : String
  nodesAddr : Nat
  method : String
  deriving DecidableEq, Repr

/-- Attachment of one request closure over the record at `a`
(`httpRequest(nodes, method)` run at attach time). -/
def mkVerb (h : Heap) (a : Nat) (m : String) : VerbClosure :=
  { fullUrl := buildFullUrl (heapGet h a), nodesAddr := a, method := m }

/-- The options record a request closure assembles when finally invoked:
the baked URL together with the headers read from the shared record at
invocation time. -/
structure ReqOptions where
  url : String
  method : String
  headers : Option (Option (List (String × String)))
  deriving DecidableEq, Repr

/-- Invocation of a request closure against the current heap. -/
def invokeVerb (h : Heap) (vc : VerbClosure) : ReqOptions :=
  { url := vc.fullUrl, method := vc.method,
    headers := (heapGet h vc.nodesAddr).headers }

/-- The allocation step of `attachQuery`: when the record at `nodes` has no
`query` property yet, a fresh clone with `query` set to null is allocated;
that one clone is captured both by the helper closure and by the
introspection subtree.  When a `query` property is already present the
helper is not attached. -/
def attachQueryAlloc (h : Heap) (nodes : Nat) : Option (Heap × Nat) :=
  if (heapGet h nodes).query.isSome then none
  else some (alloc h { heapGet h nodes with query := some none })

/-- The allocation step of `attachHeaders`, symmetric to `attachQueryAlloc`. -/
def attachHeadersAlloc (h : Heap) (nodes : Nat) : Option (Heap × Nat) :=
  if (heapGet h nodes).headers.isSome then none
  else some (alloc h { heapGet h nodes with headers := some none })

/-- The body of the `query` helper closure: it assigns the (stringified)
query onto the one shared clone, then attaches fresh request closures over
it; the URL those closures bake reflects the assignment, because the
assignment happens first.  One representative closure stands for the
per-verb family `attachMethods` attaches, all built alike. -/
def queryHelperInvoke (h : Heap) (routeAddr : Nat) (q : String) :
    Heap × VerbClosure :=
  let h2 := heapSet h routeAddr { heapGet h routeAddr with query := some (some q) }
  (h2, mkVerb h2 routeAddr "get")

/-- The body of the `headers` helper closure, symmetric to
`queryHelperInvoke`: it assigns onto the one shared clone and attaches fresh
request closures over it. -/
def headersHelperInvoke (h : Heap) (routeAddr : Nat)
    (hs : List (String × String)) : Heap × VerbClosure :=
  let h2 := heapSet h routeAddr { heapGet h routeAddr with headers := some (some hs) }
  (h2, mkVerb h2 routeAddr "get")

/-- The per-child cloning step of `attachResources`
(`_.extend([], nodes)` followed by `routeNodes.push(route)`): every child
resource gets its own freshly allocated record. -/
def cloneWithRoute (h : Heap) (nodes : Nat) (route : String) : Heap × Nat :=
  let r := heapGet h nodes
  alloc h { r with segments := r.segments ++ [route] }

/-- Initial heap for the concrete header-sharing trace: one record for a
static branch of the call graph. -/
def c3Heap0 : Heap :=
  [{ segments := ["users"], baseUri := "http://api.example.com" }]

/-- The clone `attachHeaders` makes for the node of the concrete trace,
shared by the helper closure and the introspection subtree. -/
def c3Alloc : Heap × Nat := (attachHeadersAlloc c3Heap0 0).getD ([], 0)

/-- First invocation of the `headers` helper in the concrete trace. -/
def c3First : Heap × VerbClosure :=
  headersHelperInvoke c3Alloc.1 c3Alloc.2 [("x-token", "first")]

/-- Second invocation of the `headers` helper on the same node. -/
def c3Second : Heap × VerbClosure :=
  headersHelperInvoke c3First.1 c3Alloc.2 [("x-token", "second")]

/-- The five type names the validator's branches treat specially; any other
`type` facet reaches the final fall-through. -/
def typeIsHandled (t : JSVal) : Bool :=
  jsStrictEq t (.str "string") || jsStrictEq t (.str "integer") ||
  jsStrictEq t (.str "number") || jsStrictEq t (.str "date") ||
  jsStrictEq t (.str "boolean")

/-- Reading an in-place update back at the written index. -/
theorem getD_set_self {α : Type} (l : List α) (i : Nat) (x d : α)
    (h : i < l.length) : (l.set i x).getD i d = x := by
  induction l generalizing i with
  | nil => simp at h
  | cons y ys ih =>
    cases i with
    | zero => simp
    | succ n =>
      simp only [List.set_cons_succ, List.getD_cons_succ]
      exact ih n (Nat.lt_of_succ_lt_succ (by simpa using h))

/-- An in-place update is invisible at every other index. -/
theorem getD_set_ne {α : Type} (l : List α) (i j : Nat) (x d : α)
    (h : j ≠ i) : (l.set i x).getD j d = l.getD j d := by
  induction l generalizing i j with
  | nil => simp
  | cons y ys ih =>
    cases i with
    | zero =>
      cases j with
      | zero => exact absurd rfl h
      | succ m => simp
    | succ n =>
      cases j with
      | zero => simp
      | succ m =>
        simp only [List.set_cons_succ, List.getD_cons_succ]
        exact ih n m (fun hmn => h (by rw [hmn]))

/-- Allocation at the end of the heap is invisible at every existing index. -/
theorem getD_append_left {α : Type} (l m : List α) (i : Nat) (d : α)
    (h : i < l.length) : (l ++ m).getD i d = l.getD i d := by
  induction l generalizing i with
  | nil => simp at h
  | cons y ys ih =>
    cases i with
    | zero => simp
    | succ n =>
      simp only [List.cons_append, List.getD_cons_succ]
      exact ih n (Nat.lt_of_succ_lt_succ (by simpa using h))

/-- Every non-error result of the validator carries the value true: the
source has a single `return true` and otherwise only throws. -/
theorem validateParam_ok_true (v : JSVal) (p : Param) (r : Bool)
    (h : validateParam v p = .ok r) : r = true := by
  unfold validateParam checkRange at h
  repeat' split at h
  all_goals simp_all

/-- C4: for every parameter spec with required strictly true, validating an
absent (nullish) value fails with MissingRequired whatever the other facets
say; for every spec with required unset or false, validating an absent value
succeeds outright with no further checks. -/
theorem required_absent_validation (p q : Param) (v w : JSVal)
    (hp : p.required = .bool true) (hv : v.isNullish = true)
    (hq : q.required = .undefined ∨ q.required = .bool false)
    (hw : w.isNullish = true) :
    validateParam v p = .error .missingRequired ∧
    validateParam w q = .ok true := by
  constructor
  · unfold validateParam
    rw [hp]
    simp [jsStrictEq, hv]
  · unfold validateParam
    rcases hq with h | h <;> rw [h] <;> simp [jsStrictEq, hw]

/-- Witness for C4 at a concrete required spec and a concrete facet-free
spec, both validated against null. -/
theorem required_absent_validation_witness :
    validateParam .null { required := .bool true } = .error .missingRequired ∧
    validateParam .null {} = .ok true :=
  required_absent_validation { required := .bool true } {} .null .null
    rfl rfl (Or.inl rfl) rfl

/-- C8: the validator enforces required only when the facet is the strict
boolean true, so a truthy non-boolean required facet lets an absent value
through. -/
theorem truthy_nonbool_required_not_enforced (p : Param) (v : JSVal)
    (hr : jsTruthy p.required = true)
    (hb : ∀ b, p.required ≠ .bool b)
    (hv : v.isNullish = true) :
    validateParam v p = .ok true := by
  have hfalse : jsStrictEq p.required (.bool true) = false := by
    cases hp : p.required
    case bool b => exact absurd hp (hb b)
    all_goals simp [jsStrictEq]
  unfold validateParam
  rw [hfalse]
  simp [hv]

/-- Witness for C8 at required = 1, a truthy non-boolean facet. -/
theorem truthy_nonbool_required_not_enforced_witness :
    validateParam .null { required := .num 1 } = .ok true :=
  truthy_nonbool_required_not_enforced { required := .num 1 } .null
    (by rfl) (fun b h => JSVal.noConfusion h) rfl

/-- C10: a present value always validates against a spec whose type is none
of the five handled names, and every non-throwing validation returns true. -/
theorem unknown_type_accepts (p : Param) (v : JSVal)
    (ht : typeIsHandled p.type = false) (hv : v.isNullish = false) :
    validateParam v p = .ok true ∧
    ∀ (p2 : Param) (w : JSVal) (r : Bool),
      validateParam w p2 = .ok r → r = true := by
  refine ⟨?_, fun p2 w r h => validateParam_ok_true w p2 r h⟩
  simp only [typeIsHandled, Bool.or_eq_false_iff] at ht
  obtain ⟨⟨⟨⟨h1, h2⟩, h3⟩, h4⟩, h5⟩ := ht
  unfold validateParam
  rw [h1, h2, h3, h4, h5]
  simp [hv]

/-- Witness for C10 at a spec of type file and a present string value. -/
theorem unknown_type_accepts_witness :
    validateParam (.str "x") { type := .str "file" } = .ok true ∧
    ∀ (p2 : Param) (w : JSVal) (r : Bool),
      validateParam w p2 = .ok r → r = true :=
  unknown_type_accepts { type := .str "file" } (.str "x") (by rfl) rfl

/-- C5: against an integer-typed spec every present non-integral value fails
with TypeMismatch, an integral value range-checks against the declared
maximum failing with RangeViolation, and in particular 150 against maximum
100 fails with RangeViolation while 99 passes. -/
theorem integer_validation (p1 p2 : Param) (v : JSVal) (q M : ℚ)
    (ht1 : p1.type = .str "integer")
    (hv : v.isNullish = false) (hni : isIntegerJS v = false)
    (ht2 : p2.type = .str "integer") (hmin : p2.minimum = .undefined)
    (hmax : p2.maximum = .num M) (hden : q.den = 1) :
    validateParam v p1 = .error .typeMismatch ∧
    (M < q → validateParam (.num q) p2 = .error .rangeViolation) ∧
    (q ≤ M → validateParam (.num q) p2 = .ok true) ∧
    validateParam (.num 150) { type := .str "integer", maximum := .num 100 } =
      .error .rangeViolation ∧
    validateParam (.num 99) { type := .str "integer", maximum := .num 100 } =
      .ok true := by
  refine ⟨?_, ?_, ?_, rfl, rfl⟩
  · unfold validateParam
    rw [ht1]
    cases v <;> simp_all [jsStrictEq, JSVal.isNullish, isIntegerJS]
  · intro hlt
    unfold validateParam checkRange
    rw [ht2]
    simp [jsStrictEq, JSVal.isNullish, minimumViolated, maximumViolated,
      hmin, hmax, hden, hlt]
  · intro hle
    have hnlt : ¬ (M < q) := not_lt.mpr hle
    unfold validateParam checkRange
    rw [ht2]
    simp [jsStrictEq, JSVal.isNullish, minimumViolated, maximumViolated,
      hmin, hmax, hden, hnlt]

/-- Witness for C5 at a non-integral string value and the concrete
maximum-100 spec with the values 150 and 99. -/
theorem integer_validation_witness :
    validateParam (.str "x") { type := .str "integer" } = .error .typeMismatch ∧
    ((100 : ℚ) < 150 →
      validateParam (.num 150) { type := .str "integer", maximum := .num 100 } =
        .error .rangeViolation) ∧
    ((150 : ℚ) ≤ 100 →
      validateParam (.num 150) { type := .str "integer", maximum := .num 100 } =
        .ok true) ∧
    validateParam (.num 150) { type := .str "integer", maximum := .num 100 } =
      .error .rangeViolation ∧
    validateParam (.num 99) { type := .str "integer", maximum := .num 100 } =
      .ok true :=
  integer_validation { type := .str "integer" }
    { type := .str "integer", maximum := .num 100 } (.str "x") 150 100
    rfl rfl rfl rfl rfl rfl (by rfl)

/-- C9: a string spec whose pattern facet is not a regular-expression value
can never fail with PatternViolation, and a string value passing the enum
and length facets validates successfully. -/
theorem nonregexp_pattern_not_enforced (p : Param) (s : String) (v : JSVal)
    (ht : p.type = .str "string")
    (hpat : ∀ t, p.pattern ≠ .regexp t)
    (he : enumViolated p (.str s) = false)
    (hmin : minLengthViolated p s = false)
    (hmax : maxLengthViolated p s = false) :
    validateParam v p ≠ .error .patternViolation ∧
    validateParam (.str s) p = .ok true := by
  have hp : ∀ s2, patternViolated p s2 = false := by
    intro s2
    cases hq : p.pattern
    case regexp t => exact absurd hq (hpat t)
    all_goals simp [patternViolated, hq]
  constructor
  · intro hcontra
    unfold validateParam at hcontra
    rw [ht] at hcontra
    cases v <;> simp_all [jsStrictEq, JSVal.isNullish, hp] <;>
      (repeat' split at hcontra) <;> simp_all
  · unfold validateParam
    rw [ht]
    simp [jsStrictEq, JSVal.isNullish, he, hmin, hmax, hp]

/-- Witness for C9 at a string spec whose pattern facet is the plain string
of a regular expression, checked against a present string value. -/
theorem nonregexp_pattern_not_enforced_witness :
    validateParam .date { type := .str "string", pattern := .str "[a-z]+" } ≠
      .error .patternViolation ∧
    validateParam (.str "x") { type := .str "string", pattern := .str "[a-z]+" } =
      .ok true :=
  nonregexp_pattern_not_enforced
    { type := .str "string", pattern := .str "[a-z]+" } "x" .date
    rfl (fun t h => JSVal.noConfusion h) rfl rfl rfl

/-- C6: substituting the single-tag template with the named context and with
the positional context both produce the same substituted text. -/
theorem template_roundtrip_42 :
    template "/{id}" (some [("id", idSpec)]) (.named [("id", .str "42")]) =
      .ok "/42" ∧
    template "/{id}" (some [("id", idSpec)]) (.positional [.str "42"]) =
      .ok "/42" :=
  ⟨rfl, rfl⟩

/-- C7: with no declared parameter mapping the substituter returns its input
unchanged, literal braces included, before any pattern is built or any
validation can run. -/
theorem template_no_params_identity (s : String) (ctx : TContext) :
    template s none ctx = .ok s := rfl

/-- On a route whose static text is nonempty, the derived accessor name is
exactly that static text: the bare-tag special case only applies to routes
that start with an opening brace. -/
theorem derivedRouteName_prefix (route : String) (tags : List String)
    (hpre : substrToFirstBrace route ≠ "") :
    derivedRouteName route tags = substrToFirstBrace route := by
  unfold derivedRouteName
  split
  next hcond =>
    obtain ⟨h1, h2⟩ := Bool.and_eq_true_iff.mp hcond
    exfalso
    apply hpre
    rw [eq_of_beq h2]
    simp [substrToFirstBrace, String.data_append]
  next => rfl

/-- C1 counterexample: the claim's own example route with a dash before the
tag is skipped, because the shape's static text admits only word characters
(letters, digits, underscore); and a route matching the shape is still
skipped when its derived name collides with a reserved method name. -/
theorem route_shape_claim_counterexample :
    attachDecision "user-{id}" (some [("id", idSpec)]) = .skipped ∧
    routeShapeOk "query{x}" = true ∧
    attachDecision "query{x}" (some [("x", idSpec)]) = .skipped :=
  ⟨rfl, rfl, rfl⟩

/-- C1 amended: a resource with declared parameter keys is attached exactly
when its route passes the shape test (leading word characters, then
one-or-more tag groups, nothing after) and the derived accessor name is not
reserved; when the static text before the first brace is nonempty the
accessor name is that text, and the underscore variant of the claim's
route yields a prefix-named accessor callable with one argument. -/
theorem route_attachment (r1 r2 : String) (u1 u2 : List (String × Param))
    (name : String) (cnt : Nat)
    (hne : u1 ≠ [])
    (hdyn : attachDecision r2 (some u2) = .dynamic name cnt)
    (hpre : substrToFirstBrace r2 ≠ "") :
    (attachDecision r1 (some u1) ≠ .skipped ↔
      (routeShapeOk r1 = true ∧
        RESERVED_METHODS.contains
          (derivedRouteName r1 (u1.map (fun e => e.1))) = false)) ∧
    name = substrToFirstBrace r2 ∧
    attachDecision "user_{id}" (some [("id", idSpec)]) = .dynamic "user_" 1 ∧
    accessorInvoke "user_{id}" [("id", idSpec)] 1 ["user_{id}"] [.str "42"] =
      .ok ["user_42"] := by
  refine ⟨?_, ?_, rfl, rfl⟩
  · cases u1 with
    | nil => exact absurd rfl hne
    | cons e es =>
      simp only [attachDecision]
      cases hsh : routeShapeOk r1 <;>
        cases hres : RESERVED_METHODS.contains
          (derivedRouteName r1 ((e :: es).map (fun x => x.1))) <;>
        simp [hsh, hres]
  · simp only [attachDecision] at hdyn
    repeat' split at hdyn
    all_goals try cases hdyn
    all_goals exact derivedRouteName_prefix r2 _ hpre

/-- Witness for C1 at the underscore variant of the claim's route. -/
theorem route_attachment_witness :
    (attachDecision "user_{id}" (some [("id", idSpec)]) ≠ .skipped ↔
      (routeShapeOk "user_{id}" = true ∧
        RESERVED_METHODS.contains
          (derivedRouteName "user_{id}" ([("id", idSpec)].map (fun e => e.1))) =
          false)) ∧
    "user_" = substrToFirstBrace "user_{id}" ∧
    attachDecision "user_{id}" (some [("id", idSpec)]) = .dynamic "user_" 1 ∧
    accessorInvoke "user_{id}" [("id", idSpec)] 1 ["user_{id}"] [.str "42"] =
      .ok ["user_42"] :=
  route_attachment "user_{id}" "user_{id}" [("id", idSpec)] [("id", idSpec)]
    "user_" 1 (by simp) rfl (by decide)

/-- C2 counterexample: a route carrying a single textual tag but two declared
parameter keys is attached as a dynamic accessor whose declared-key count is
two, so supplying one argument (one per textual tag) still throws the arity
error: the accessor's tag list is the declared keys, not the names textually
present in the route. -/
theorem templateTags_claim_counterexample :
    routeTags "\x7bid\x7d" = ["id"] ∧
    attachDecision "\x7bid\x7d" (some [("id", idSpec), ("extra", idSpec)]) =
      .dynamic "" 2 ∧
    accessorInvoke "\x7bid\x7d" [("id", idSpec), ("extra", idSpec)] 2
      ["\x7bid\x7d"] [.str "42"] = .error .insufficientArguments :=
  ⟨rfl, rfl, rfl⟩

/-- C2 amended: a dynamic accessor's tag count is the number of declared
parameter keys (which need not equal the tags textually present in the
route), and any invocation with fewer positional arguments than that count
throws the arity error before the template engine runs and before the path
fragment is touched. -/
theorem accessor_arity (route : String) (ups : List (String × Param))
    (nodes : List String) (args : List JSVal) (name : String) (cnt : Nat)
    (hlt : args.length < ups.length)
    (hdyn : attachDecision route (some ups) = .dynamic name cnt) :
    accessorInvoke route ups ups.length nodes args =
      .error .insufficientArguments ∧
    cnt = ups.length := by
  constructor
  · unfold accessorInvoke
    simp [hlt]
  · simp only [attachDecision] at hdyn
    repeat' split at hdyn
    all_goals try cases hdyn
    all_goals exact List.length_map ups (fun e => e.1)

/-- Witness for C2 at the two-key single-tag route invoked with one
argument. -/
theorem accessor_arity_witness :
    accessorInvoke "\x7bid\x7d" [("id", idSpec), ("extra", idSpec)] 2
      ["\x7bid\x7d"] [.str "42"] = .error .insufficientArguments ∧
    2 = [("id", idSpec), ("extra", idSpec)].length :=
  accessor_arity "\x7bid\x7d" [("id", idSpec), ("extra", idSpec)]
    ["\x7bid\x7d"] [.str "42"] "" 2 (by decide) rfl

/-- Reading the written record back at the written heap address. -/
theorem heapGet_set_self (h : Heap) (a : Nat) (r : RouteRec)
    (ha : a < h.length) : heapGet (heapSet h a r) a = r :=
  getD_set_self h a r _ ha

/-- A heap write at one address is invisible at any other address. -/
theorem heapGet_set_ne (h : Heap) (a b : Nat) (r : RouteRec)
    (hab : b ≠ a) : heapGet (heapSet h a r) b = heapGet h b :=
  getD_set_ne h a b r _ hab

/-- A fresh allocation is invisible at every previously valid address. -/
theorem heapGet_append (h : Heap) (rs : List RouteRec) (c : Nat)
    (hc : c < h.length) : heapGet (h ++ rs) c = heapGet h c :=
  getD_append_left h rs c _ hc

/-- C3 counterexample: after a second invocation of the same node's headers
helper, the request closures of the subtree returned by the first invocation
report the later-set headers value, because both invocations mutate and read
the one routeNodes clone they share. -/
theorem snapshot_claim_counterexample :
    (invokeVerb c3First.1 c3First.2).headers =
      some (some [("x-token", "first")]) ∧
    (invokeVerb c3Second.1 c3First.2).headers =
      some (some [("x-token", "second")]) ∧
    c3First.2.nodesAddr = c3Second.2.nodesAddr :=
  ⟨rfl, rfl, rfl⟩

/-- C3 amended: the URL of a query subtree is baked eagerly from the snapshot
taken when the helper ran, so later mutations never change it; a headers
write at one address is invisible to every branch over a different
routeNodes record; and the per-child clone of the builder is a fresh
address, invisible to and distinct from every existing record. -/
theorem snapshot_isolation (h : Heap) (a b c : Nat) (q1 q2 : String)
    (hs : List (String × String)) (route : String)
    (ha : a < h.length) (hab : b ≠ a) (hc : c < h.length) :
    (invokeVerb (queryHelperInvoke (queryHelperInvoke h a q1).1 a q2).1
        (queryHelperInvoke h a q1).2).url =
      buildFullUrl { heapGet h a with query := some (some q1) } ∧
    heapGet (headersHelperInvoke h a hs).1 b = heapGet h b ∧
    (cloneWithRoute h a route).2 = h.length ∧
    heapGet (cloneWithRoute h a route).1 c = heapGet h c := by
  refine ⟨?_, ?_, rfl, ?_⟩
  · simp only [queryHelperInvoke, invokeVerb, mkVerb]
    rw [heapGet_set_self h a _ ha]
  · simp only [headersHelperInvoke]
    exact heapGet_set_ne h a b _ hab
  · simp only [cloneWithRoute, alloc]
    exact heapGet_append h _ c hc

/-- Witness for C3's amended statement on the concrete one-record heap. -/
theorem snapshot_isolation_witness :
    (invokeVerb (queryHelperInvoke (queryHelperInvoke c3Heap0 0 "a=1").1 0 "b=2").1
        (queryHelperInvoke c3Heap0 0 "a=1").2).url =
      buildFullUrl { heapGet c3Heap0 0 with query := some (some "a=1") } ∧
    heapGet (headersHelperInvoke c3Heap0 0 [("x-token", "w")]).1 1 =
      heapGet c3Heap0 1 ∧
    (cloneWithRoute c3Heap0 0 "child").2 = c3Heap0.length ∧
    heapGet (cloneWithRoute c3Heap0 0 "child").1 0 = heapGet c3Heap0 0 :=
  snapshot_isolation c3Heap0 0 1 0 "a=1" "b=2" [("x-token", "w")] "child"
    (by decide) (by decide) (by decide)
